import Mathlib

/-!
Verification of the labmachine lab-lifecycle controller and its CLI layer.

The repository sources under verification are `labmachine/cli.py` (the CLI
adapters, embedded here directly) and `labmachine/errors.py` (embedded
directly).  The controller module `labmachine.jupyter` (JupyterController,
push_state, clean_state) is not part of the available sources; its operations
are modelled from the specification, each such definition carrying a doc
comment starting with `Modelled from the spec:`.
-/

namespace Labmachine

/-- Volume Record tracked in the descriptor: size, location, storageType,
status (spec data model). -/
structure VolumeRecord where
  size : String
  location : String
  storage_type : String
  status : String
  deriving DecidableEq, Repr

/-- The instance entry of a Lab State Descriptor: provider-assigned name,
externally reachable URL, access token, and a status field. -/
structure InstanceInfo where
  name : String
  url : String
  token : String
  status : String
  deriving DecidableEq, Repr

/-- Lab State Descriptor: project, provider codes, location, dnsId, optional
instance, optional DNS record, and the volume table keyed by name. -/
structure JupyterState where
  project : String
  compute_provider : String
  dns_provider : String
  location : Option String
  dns_id : String
  inst : Option InstanceInfo
  record : Option String
  volumes : List (String × VolumeRecord)
  deriving DecidableEq, Repr

/-- The durable State Store: documents keyed by locator (statePath), each with
a version counter, plus the local pointer file (JUPCTL_CONF) content. -/
structure StateStore where
  docs : List (String × JupyterState × Nat)
  pointer : Option String
  deriving DecidableEq, Repr

/-- One CLI invocation view of the world: the in-memory descriptor, the
locator it was loaded from, and the durable store. -/
structure World where
  mem : JupyterState
  locator : String
  store : StateStore
  deriving DecidableEq, Repr

/-- Outcomes of the provider drivers for one operation, as observed by the
controller: success flags for each driver call plus the data a successful
call returns. -/
structure ProviderEnv where
  instanceCreated : Bool
  createInFlight : Bool
  dnsCreateOk : Bool
  dnsDeleteOk : Bool
  instanceDeleteOk : Bool
  resizeOk : Bool
  volumeDeleteOk : Bool
  madeInstance : InstanceInfo
  madeRecord : String
  deriving DecidableEq, Repr

/-- Error taxonomy of the controller (spec section 7). -/
inductive JupErr
  | NotFound
  | AlreadyProvisioned
  | ProvisionTimeout
  | ProviderError
  | StateNotFound
  deriving DecidableEq, Repr

/-- Result of DestroyLab. -/
inductive DestroyRes
  | Done
  | PartialDestroy
  | ProviderFail
  deriving DecidableEq, Repr

/-- Observable actions issued against the providers, the store, or the
network, used to state ordering properties. -/
inductive Action
  | checkVolume (name : String)
  | createInstanceReq
  | createDNSRecord
  | deleteDNSRecord
  | deleteInstanceReq
  | resizeVolumeReq (name : String)
  | deleteVolumeReq (name : String)
  | pushState
  | httpGet
  | sleep10
  deriving DecidableEq, Repr

/-- Modelled from the spec: the instance-deletion phase of DestroyLab (missing
module labmachine.jupyter): delete the instance if present, then clear
`instance` from the descriptor; a provider failure leaves it in place. -/
def destroy_instance_phase (env : ProviderEnv) (s : JupyterState) (tr : List Action) :
    DestroyRes × JupyterState × List Action :=
  match s.inst with
  | some _ =>
    if env.instanceDeleteOk then
      (DestroyRes.Done, { s with inst := none }, tr ++ [Action.deleteInstanceReq])
    else
      (DestroyRes.ProviderFail, s, tr ++ [Action.deleteInstanceReq])
  | none => (DestroyRes.Done, s, tr)

/-- Modelled from the spec: DestroyLab (missing module labmachine.jupyter):
delete the DNS record first, then delete the instance, then clear `instance`
from the descriptor; if DNS deletion fails, instance deletion is not attempted
and the operation surfaces PartialDestroy. -/
def destroy_lab (env : ProviderEnv) (s : JupyterState) :
    DestroyRes × JupyterState × List Action :=
  match s.record with
  | some _ =>
    if env.dnsDeleteOk then
      destroy_instance_phase env { s with record := none } [Action.deleteDNSRecord]
    else
      (DestroyRes.PartialDestroy, s, [Action.deleteDNSRecord])
  | none => destroy_instance_phase env s []

/-- C1: for a lab whose descriptor has both a DNS record and an instance, the
trace of DestroyLab starts with the DNS-record deletion (so it precedes any
instance deletion), and when DNS deletion fails the instance deletion is not
attempted, the result is PartialDestroy, and the instance remains present in
the descriptor. -/
theorem destroy_lab_dns_first (env : ProviderEnv) (s : JupyterState)
    (r : String) (i : InstanceInfo)
    (hr : s.record = some r) (hi : s.inst = some i) :
    (destroy_lab env s).2.2.head? = some Action.deleteDNSRecord ∧
    (env.dnsDeleteOk = false →
      (destroy_lab env s).1 = DestroyRes.PartialDestroy ∧
      Action.deleteInstanceReq ∉ (destroy_lab env s).2.2 ∧
      (destroy_lab env s).2.1.inst = some i) := by
  cases hdns : env.dnsDeleteOk with
  | true =>
    cases hidel : env.instanceDeleteOk <;>
      simp [destroy_lab, destroy_instance_phase, hr, hi, hdns, hidel]
  | false =>
    simp [destroy_lab, destroy_instance_phase, hr, hi, hdns]

/-- Modelled from the spec: push_state of the State Store (missing module
labmachine.jupyter): serializes and writes the descriptor to its durable
location, incrementing version. -/
def push_state (st : StateStore) (locator : String) (d : JupyterState) : StateStore :=
  let v : Nat :=
    match st.docs.lookup locator with
    | some (_, n) => n + 1
    | none => 1
  { st with docs := (locator, d, v) :: st.docs.filter (fun e => e.1 != locator) }

/-- A successful CreateLab returns the lab URL and access token. -/
structure LabHandle where
  url : String
  token : String
  deriving DecidableEq, Repr

/-- Modelled from the spec: steps 2-5 of CreateLab (missing module
labmachine.jupyter): request instance creation, then a DNS record under
dnsId, compose the URL and token, populate `instance`; a timeout with
creation in flight records a pending instance, a timeout with no instance
leaves the descriptor unmodified, a DNS failure leaves a partial instance. -/
def create_lab_steps (env : ProviderEnv) (s : JupyterState) (tr : List Action) :
    Except JupErr LabHandle × JupyterState × List Action :=
  let tr₁ := tr ++ [Action.createInstanceReq]
  if env.instanceCreated then
    let tr₂ := tr₁ ++ [Action.createDNSRecord]
    if env.dnsCreateOk then
      let url := env.madeRecord ++ "." ++ s.dns_id
      let info := { env.madeInstance with url := url, status := "running" }
      (Except.ok { url := url, token := info.token },
        { s with inst := some info, record := some env.madeRecord }, tr₂)
    else
      (Except.error JupErr.ProviderError,
        { s with inst := some { env.madeInstance with status := "partial" } }, tr₂)
  else if env.createInFlight then
    (Except.error JupErr.ProvisionTimeout,
      { s with inst := some { env.madeInstance with status := "pending" } }, tr₁)
  else
    (Except.error JupErr.ProvisionTimeout, s, tr₁)

/-- Modelled from the spec: CreateLab (missing module labmachine.jupyter):
fails AlreadyProvisioned when an instance is present; otherwise step 1
resolves and validates the named volume if one was given, before the
instance-creation request; the operation itself never touches the State
Store. -/
def create_lab (env : ProviderEnv) (s : JupyterState) (volume_data : Option String) :
    Except JupErr LabHandle × JupyterState × List Action :=
  if s.inst.isSome then
    (Except.error JupErr.AlreadyProvisioned, s, [])
  else
    match volume_data with
    | some v =>
      if (s.volumes.lookup v).isSome then
        create_lab_steps env s [Action.checkVolume v]
      else
        (Except.error JupErr.NotFound, s, [Action.checkVolume v])
    | none => create_lab_steps env s []

/-- CreateLab lifted to the world: it only replaces the in-memory
descriptor; the store component is passed through untouched. -/
def create_lab_world (env : ProviderEnv) (w : World) (volume_data : Option String) :
    Except JupErr LabHandle × World × List Action :=
  match create_lab env w.mem volume_data with
  | (r, s', tr) => (r, { w with mem := s' }, tr)

/-- The cli `up` command (src/labmachine/cli.py, jupyter_up, non-module path):
check the volume when one is named (warning only), call create_lab, and push
only after create_lab returned; an exception from create_lab propagates and
the push is never reached. -/
def cli_jupyter_up (env : ProviderEnv) (w : World) (volume : Option String) :
    Except JupErr LabHandle × World × List Action :=
  let pre : List Action :=
    match volume with
    | some v => [Action.checkVolume v]
    | none => []
  match create_lab env w.mem volume with
  | (Except.error e, s', tr) => (Except.error e, { w with mem := s' }, pre ++ tr)
  | (Except.ok h, s', tr) =>
    (Except.ok h,
      { w with mem := s', store := push_state w.store w.locator s' },
      pre ++ tr ++ [Action.pushState])

/-- C2: CreateLab never writes the durable state itself: for every
invocation (success or failure at any step) the store is unchanged and no
push action appears in its trace; in the cli caller, a create_lab failure
leaves the previously pushed store unchanged (the push is a separate
explicit step reached only on success). -/
theorem create_lab_no_push (env : ProviderEnv) (w : World) (volume_data : Option String) :
    (create_lab_world env w volume_data).2.1.store = w.store ∧
    Action.pushState ∉ (create_lab_world env w volume_data).2.2 ∧
    (∀ e, (cli_jupyter_up env w volume_data).1 = Except.error e →
      (cli_jupyter_up env w volume_data).2.1.store = w.store) := by
  cases volume_data with
  | none =>
    cases hic : env.instanceCreated <;> cases hif : env.createInFlight <;>
      cases hdc : env.dnsCreateOk <;>
      by_cases hin : w.mem.inst.isSome = true <;>
        simp [create_lab_world, cli_jupyter_up, create_lab, create_lab_steps,
          hic, hif, hdc, hin]
  | some v =>
    cases hic : env.instanceCreated <;> cases hif : env.createInFlight <;>
      cases hdc : env.dnsCreateOk <;>
      by_cases hin : w.mem.inst.isSome = true <;>
      by_cases hv : (w.mem.volumes.lookup v).isSome = true <;>
        simp [create_lab_world, cli_jupyter_up, create_lab, create_lab_steps,
          hic, hif, hdc, hin, hv]

/-- C7: whenever CreateLab is invoked with a volume named and an
instance-creation request is issued at all, the very first action of the
trace was the resolution check of that volume, so the volume is validated
before instance creation is requested from the Compute Driver. -/
theorem create_lab_volume_first (env : ProviderEnv) (s : JupyterState) (v : String)
    (h : Action.createInstanceReq ∈ (create_lab env s (some v)).2.2) :
    (create_lab env s (some v)).2.2.head? = some (Action.checkVolume v) := by
  by_cases hin : s.inst.isSome = true
  · simp [create_lab, hin] at h
  · by_cases hv : (s.volumes.lookup v).isSome = true
    · cases hic : env.instanceCreated <;> cases hif : env.createInFlight <;>
        cases hdc : env.dnsCreateOk <;>
        simp [create_lab, create_lab_steps, hin, hv, hic, hif, hdc]
    · simp [create_lab, hin, hv] at h

/-- Auxiliary: updating the entry of one key by a map leaves that key bound,
with the update applied to its record. -/
theorem lookup_map_update {β : Type} (l : List (String × β)) (name : String)
    (f : β → β) (v : β) (h : l.lookup name = some v) :
    (l.map (fun e => if e.1 = name then (e.1, f e.2) else e)).lookup name = some (f v) := by
  induction l with
  | nil => simp [List.lookup] at h
  | cons e es ih =>
    obtain ⟨k, b⟩ := e
    by_cases hk : k = name
    · subst hk
      simp [List.lookup_cons] at h
      simp [List.lookup_cons, h]
    · have hne : (name == k) = false := beq_false_of_ne (Ne.symm hk)
      simp [List.lookup_cons, hne] at h
      simp [List.lookup_cons, hk, hne, ih h]

/-- Auxiliary: after filtering out every entry of one key, that key has no
binding left. -/
theorem lookup_filter_self {β : Type} (l : List (String × β)) (name : String) :
    (l.filter (fun e => e.1 != name)).lookup name = none := by
  induction l with
  | nil => rfl
  | cons e es ih =>
    obtain ⟨k, b⟩ := e
    by_cases hk : k = name
    · have hb : ((k, b).1 != name) = false := by simp [hk]
      rw [List.filter_cons, hb]
      simpa using ih
    · have hb : ((k, b).1 != name) = true := by simp [hk]
      have hne : (name == k) = false := beq_false_of_ne (Ne.symm hk)
      rw [List.filter_cons, hb]
      simp only [if_true, List.lookup_cons, hne]
      exact ih

/-- Modelled from the spec: ResizeVolume (missing module labmachine.jupyter):
fails NotFound if the name is absent from the volume table, returns false
(not an exception) when the provider rejects the resize, and on success
updates the size of the record in place. -/
def resize_volume (env : ProviderEnv) (s : JupyterState) (name new_size : String) :
    Except JupErr Bool × JupyterState :=
  match s.volumes.lookup name with
  | none => (Except.error JupErr.NotFound, s)
  | some _ =>
    if env.resizeOk then
      (Except.ok true,
        { s with volumes :=
            s.volumes.map (fun e =>
              if e.1 = name then (e.1, { e.2 with size := new_size }) else e) })
    else (Except.ok false, s)

/-- The cli `volumes resize` command (src/labmachine/cli.py, volume_resize):
call resize_volume; push the state only when the result is truthy; an
exception from resize_volume propagates and no push happens. -/
def cli_volume_resize (env : ProviderEnv) (w : World) (name size : String) :
    Except JupErr Unit × World :=
  match resize_volume env w.mem name size with
  | (Except.error e, _) => (Except.error e, w)
  | (Except.ok true, s') =>
    (Except.ok (), { w with mem := s', store := push_state w.store w.locator s' })
  | (Except.ok false, s') => (Except.ok (), { w with mem := s' })

/-- C5: ResizeVolume fails NotFound on an absent name, returns boolean false
(no exception) when the provider rejects the resize, updates the size in
place on success; and the cli caller pushes the state exactly when the
result is true, so the durable store is untouched otherwise. -/
theorem resize_volume_spec (env : ProviderEnv) (w : World) (name new_size : String) :
    (w.mem.volumes.lookup name = none →
      resize_volume env w.mem name new_size = (Except.error JupErr.NotFound, w.mem)) ∧
    (∀ v, w.mem.volumes.lookup name = some v →
      (env.resizeOk = false →
        resize_volume env w.mem name new_size = (Except.ok false, w.mem)) ∧
      (env.resizeOk = true →
        (resize_volume env w.mem name new_size).1 = Except.ok true ∧
        (resize_volume env w.mem name new_size).2.volumes.lookup name =
          some { v with size := new_size })) ∧
    ((resize_volume env w.mem name new_size).1 ≠ Except.ok true →
      (cli_volume_resize env w name new_size).2.store = w.store) ∧
    ((resize_volume env w.mem name new_size).1 = Except.ok true →
      (cli_volume_resize env w name new_size).2.store =
        push_state w.store w.locator (resize_volume env w.mem name new_size).2) := by
  refine ⟨?_, ?_, ?_, ?_⟩
  · intro hl
    simp [resize_volume, hl]
  · intro v hl
    refine ⟨?_, ?_⟩
    · intro hok
      simp [resize_volume, hl, hok]
    · intro hok
      refine ⟨by simp [resize_volume, hl, hok], ?_⟩
      simp only [resize_volume, hl, hok, if_true]
      exact lookup_map_update w.mem.volumes name
        (fun r => { r with size := new_size }) v hl
  · intro hne
    cases hl : w.mem.volumes.lookup name with
    | none => simp [cli_volume_resize, resize_volume, hl]
    | some v =>
      cases hok : env.resizeOk with
      | true => exact absurd (by simp [resize_volume, hl, hok]) hne
      | false => simp [cli_volume_resize, resize_volume, hl, hok]
  · intro heq
    cases hl : w.mem.volumes.lookup name with
    | none => simp [resize_volume, hl] at heq
    | some v =>
      cases hok : env.resizeOk with
      | true => simp [cli_volume_resize, resize_volume, hl, hok]
      | false => simp [resize_volume, hl, hok] at heq

/-- Modelled from the spec: DestroyVolume (missing module labmachine.jupyter):
returns false when the provider destroy fails; on success removes the Volume
Record entirely from the descriptor. -/
def destroy_volume (env : ProviderEnv) (s : JupyterState) (name : String) :
    Bool × JupyterState :=
  match s.volumes.lookup name with
  | none => (false, s)
  | some _ =>
    if env.volumeDeleteOk then
      (true, { s with volumes := s.volumes.filter (fun e => e.1 != name) })
    else (false, s)

/-- The cli `volumes destroy` command (src/labmachine/cli.py, volume_destroy):
after operator confirmation, call destroy_volume and push the state only
when it returned true. -/
def cli_volume_destroy (env : ProviderEnv) (confirm : Bool) (w : World) (name : String) :
    World :=
  if confirm then
    match destroy_volume env w.mem name with
    | (true, s') => { w with mem := s', store := push_state w.store w.locator s' }
    | (false, s') => { w with mem := s' }
  else w

/-- C6: for a volume present in the descriptor, DestroyVolume returns false
when the provider destroy fails and then the cli does not push, leaving the
durable store unchanged; on success it returns true and the Volume Record is
removed entirely from the descriptor. -/
theorem destroy_volume_spec (env : ProviderEnv) (w : World) (name : String)
    (v : VolumeRecord) (h : w.mem.volumes.lookup name = some v) :
    (env.volumeDeleteOk = false →
      destroy_volume env w.mem name = (false, w.mem) ∧
      (cli_volume_destroy env true w name).store = w.store) ∧
    (env.volumeDeleteOk = true →
      (destroy_volume env w.mem name).1 = true ∧
      (destroy_volume env w.mem name).2.volumes.lookup name = none) := by
  refine ⟨?_, ?_⟩
  · intro hok
    simp [destroy_volume, cli_volume_destroy, h, hok]
  · intro hok
    refine ⟨by simp [destroy_volume, h, hok], ?_⟩
    simp only [destroy_volume, h, hok, if_true]
    exact lookup_filter_self w.mem.volumes name

/-- Parameters of the init command (src/labmachine/cli.py, init). -/
structure InitParams where
  project : String
  compute_provider : String
  dns_provider : String
  location : Option String
  dns_id : String
  state_path : String
  deriving DecidableEq, Repr

/-- The descriptor a successful Init produces: empty instance, record and
volume table, the given parameters copied in. -/
def new_descriptor (p : InitParams) : JupyterState :=
  { project := p.project, compute_provider := p.compute_provider,
    dns_provider := p.dns_provider, location := p.location, dns_id := p.dns_id,
    inst := none, record := none, volumes := [] }

/-- Whether some stored descriptor is discoverable remotely for the same
project and dnsId pair. -/
def descriptor_discoverable (st : StateStore) (project dns_id : String) : Bool :=
  st.docs.any (fun e => e.2.1.project == project && e.2.1.dns_id == dns_id)

/-- Modelled from the spec: JupyterController.init (missing module
labmachine.jupyter): when a descriptor already exists at statePath locally or
is discoverable remotely for the same project and dnsId pair, return the
falsy sentinel (none) without touching any state; otherwise create and store
the fresh descriptor. -/
def jupyter_init (p : InitParams) (st : StateStore) : Option JupyterState × StateStore :=
  if (st.docs.lookup p.state_path).isSome || descriptor_discoverable st p.project p.dns_id then
    (none, st)
  else
    let d := new_descriptor p
    (some d, { st with docs := (p.state_path, d, 0) :: st.docs })

/-- Messages printed by the cli init command. -/
inductive CliMsg
  | confAlready
  | projectAlready
  | tryFetch
  | initialized
  deriving DecidableEq, Repr

/-- The cli `init` command (src/labmachine/cli.py, init): when the local
pointer file already exists, stop; otherwise call JupyterController.init,
branch on its falsy sentinel to print the fetch redirect without saving a
state pointer, and save the pointer only on success. -/
def cli_init (p : InitParams) (st : StateStore) : StateStore × List CliMsg :=
  if st.pointer.isSome then
    (st, [CliMsg.confAlready])
  else
    match jupyter_init p st with
    | (none, st') => (st', [CliMsg.projectAlready, CliMsg.tryFetch])
    | (some _, st') => ({ st' with pointer := some p.state_path }, [CliMsg.initialized])

/-- C3: when a descriptor already exists at statePath locally or is
discoverable remotely for the same project and dnsId pair, Init returns the
falsy sentinel (none, not an error) and leaves the store alone, and the cli
caller branches on the sentinel to print the fetch redirect without saving a
state pointer. -/
theorem init_sentinel (p : InitParams) (st : StateStore)
    (hp : st.pointer = none)
    (h : (st.docs.lookup p.state_path).isSome = true ∨
      descriptor_discoverable st p.project p.dns_id = true) :
    jupyter_init p st = (none, st) ∧
    (cli_init p st).1 = st ∧
    (cli_init p st).1.pointer = none ∧
    CliMsg.tryFetch ∈ (cli_init p st).2 := by
  have hcond : ((st.docs.lookup p.state_path).isSome ||
      descriptor_discoverable st p.project p.dns_id) = true := by
    rcases h with h | h <;> simp [h]
  have h1 : jupyter_init p st = (none, st) := by
    simp [jupyter_init, hcond]
  refine ⟨h1, ?_, ?_, ?_⟩ <;> simp [cli_init, hp, h1]

/-- C4: calling Init twice with identical parameters when a descriptor
already exists returns the AlreadyExists sentinel both times and mutates no
state: the store after each call equals the initial store, descriptors and
pointer file included. -/
theorem init_idempotent (p : InitParams) (st : StateStore)
    (h : (st.docs.lookup p.state_path).isSome = true ∨
      descriptor_discoverable st p.project p.dns_id = true) :
    jupyter_init p st = (none, st) ∧
    jupyter_init p (jupyter_init p st).2 = (none, st) := by
  have hcond : ((st.docs.lookup p.state_path).isSome ||
      descriptor_discoverable st p.project p.dns_id) = true := by
    rcases h with h | h <;> simp [h]
  have h1 : jupyter_init p st = (none, st) := by
    simp [jupyter_init, hcond]
  exact ⟨h1, by rw [h1]; exact h1⟩

/-- Modelled from the spec: clean_state of the State Store (missing module
labmachine.jupyter): deletes the durable descriptor at the locator
entirely. -/
def clean_state (st : StateStore) (locator : String) : StateStore :=
  { st with docs := st.docs.filter (fun e => e.1 != locator) }

/-- The cli `clean` command (src/labmachine/cli.py, clean_state_cmd): resolve
the locator from the argument or the pointer file, ask for confirmation, and
only when confirmed delete the durable descriptor and then remove the local
pointer file. -/
def clean_state_cmd (confirm : Bool) (state_arg : Option String) (st : StateStore) :
    StateStore :=
  let locator :=
    match state_arg with
    | some s => s
    | none => st.pointer.getD ""
  if confirm then { clean_state st locator with pointer := none }
  else st

/-- C8: Clean deletes the durable descriptor only after operator
confirmation: a declined prompt changes nothing (explicit or pointer-derived
locator), a confirmed prompt removes both the durable descriptor at the
locator and the local pointer file. -/
theorem clean_state_cmd_spec (st : StateStore) (p : String) :
    clean_state_cmd false (some p) st = st ∧
    clean_state_cmd false none st = st ∧
    ((clean_state_cmd true (some p) st).docs.lookup p = none ∧
      (clean_state_cmd true (some p) st).pointer = none) ∧
    (st.pointer = some p →
      (clean_state_cmd true none st).docs.lookup p = none ∧
      (clean_state_cmd true none st).pointer = none) := by
  refine ⟨rfl, rfl, ⟨?_, rfl⟩, ?_⟩
  · simpa [clean_state_cmd, clean_state] using lookup_filter_self st.docs p
  · intro hp
    refine ⟨?_, rfl⟩
    simpa [clean_state_cmd, clean_state, hp] using lookup_filter_self st.docs p

/-- Python evaluation outcome of constructing one of the exception classes of
src/labmachine/errors.py: either the formatted message or a NameError on an
undefined name. -/
inductive PyOutcome
  | ok (msg : String)
  | nameError (missing : String)
  deriving DecidableEq, Repr

/-- The names defined at module scope in src/labmachine/errors.py, together
with the builtin Exception. -/
def errors_module_globals : List String :=
  ["BlobNotFound", "BucketNotFound", "BucketForbidden", "Exception"]

/-- Resolution of a name interpolated inside an f-string: the local scope
first, then the module globals (a class found there would interpolate as its
repr), otherwise a NameError on that name. -/
def py_fstring_name (lcls : List (String × String)) (gbls : List String)
    (name : String) : Except String String :=
  match lcls.lookup name with
  | some v => Except.ok v
  | none =>
    if gbls.contains name then Except.ok ("<class " ++ name ++ ">")
    else Except.error name

/-- The local scope of BucketNotFound.__init__ (src/labmachine/errors.py,
lines 7-10): the parameters self and bucket. -/
def bucketNotFound_init_locals (bucket : String) : List (String × String) :=
  [("self", "<BucketNotFound object>"), ("bucket", bucket)]

/-- src/labmachine/errors.py, BucketNotFound.__init__: the message f-string
interpolates the name Bucket (capital B), then appends " not found". -/
def BucketNotFound_init (bucket : String) : PyOutcome :=
  match py_fstring_name (bucketNotFound_init_locals bucket) errors_module_globals "Bucket" with
  | Except.ok v => PyOutcome.ok (v ++ " not found")
  | Except.error n => PyOutcome.nameError n

/-- The local scope of BlobNotFound.__init__ (src/labmachine/errors.py,
lines 1-4): the parameters self, bucket and key. -/
def blobNotFound_init_locals (bucket key : String) : List (String × String) :=
  [("self", "<BlobNotFound object>"), ("bucket", bucket), ("key", key)]

/-- src/labmachine/errors.py, BlobNotFound.__init__: interpolates the names
key and bucket, both bound as parameters. -/
def BlobNotFound_init (bucket key : String) : PyOutcome :=
  match py_fstring_name (blobNotFound_init_locals bucket key) errors_module_globals "key",
      py_fstring_name (blobNotFound_init_locals bucket key) errors_module_globals "bucket" with
  | Except.ok kv, Except.ok bv =>
    PyOutcome.ok ("Key " ++ kv ++ " not found in bucket " ++ bv)
  | Except.error n, _ => PyOutcome.nameError n
  | _, Except.error n => PyOutcome.nameError n

/-- Sanity: the sibling class BlobNotFound, whose f-string names only bound
parameters, does produce its intended message under the same name-resolution
model. -/
theorem blobNotFound_init_ok (bucket key : String) :
    BlobNotFound_init bucket key =
      PyOutcome.ok ("Key " ++ key ++ " not found in bucket " ++ bucket) := by
  have h1 : ("key" == "self") = false := by decide
  have h2 : ("key" == "bucket") = false := by decide
  have h3 : ("key" == "key") = true := by decide
  have h4 : ("bucket" == "self") = false := by decide
  have h5 : ("bucket" == "bucket") = true := by decide
  simp [BlobNotFound_init, py_fstring_name, blobNotFound_init_locals,
    List.lookup_cons, h1, h2, h3, h4, h5]

/-- C9: for every bucket argument, constructing BucketNotFound resolves the
name Bucket, which is bound neither in the local scope of the constructor
nor at module scope, so the construction raises NameError instead of
producing a message. -/
theorem bucketNotFound_always_nameError (bucket : String) :
    BucketNotFound_init bucket = PyOutcome.nameError "Bucket" := by
  have h1 : ("Bucket" == "self") = false := by decide
  have h2 : ("Bucket" == "bucket") = false := by decide
  have h3 : "Bucket" ∉ errors_module_globals := by decide
  simp [BucketNotFound_init, py_fstring_name, bucketNotFound_init_locals,
    List.lookup_cons, h1, h2, h3]

/-- The readiness loop of the cli `up` command with the wait flag
(src/labmachine/cli.py, jupyter_up, lines 235-241): code starts at -1; while
it differs from 200 the loop issues an HTTP GET, stores the status and sleeps
10 seconds. The fuel bounds how many iterations we observe; `none` means the
loop is still running after that many iterations. -/
def wait_loop_run (statuses : Nat → Int) : Nat → Nat → Option (List Action)
  | 0, _ => none
  | fuel + 1, i =>
    if statuses i = 200 then some [Action.httpGet, Action.sleep10]
    else
      match wait_loop_run statuses fuel (i + 1) with
      | none => none
      | some tr => some (Action.httpGet :: Action.sleep10 :: tr)

/-- The trace of n probe iterations: each is one HTTP GET followed by one
10-second sleep. -/
def wait_trace : Nat → List Action
  | 0 => []
  | n + 1 => Action.httpGet :: Action.sleep10 :: wait_trace n

/-- Auxiliary: when no probe ever returns 200, the loop is still running
after any number of iterations. -/
theorem wait_loop_no_200 (statuses : Nat → Int) (h : ∀ i, statuses i ≠ 200) :
    ∀ fuel i, wait_loop_run statuses fuel i = none := by
  intro fuel
  induction fuel with
  | zero => intro i; rfl
  | succ f ih => intro i; simp [wait_loop_run, h i, ih (i + 1)]

/-- Auxiliary: when the first probe from position i returning 200 is the one
at offset k, the loop terminates with exactly k+1 probe iterations. -/
theorem wait_loop_first_200 (statuses : Nat → Int) :
    ∀ k i, statuses (i + k) = 200 → (∀ j, j < k → statuses (i + j) ≠ 200) →
      ∀ f, k < f → wait_loop_run statuses f i = some (wait_trace (k + 1)) := by
  intro k
  induction k with
  | zero =>
    intro i h200 _ f hf
    match f, hf with
    | f + 1, _ =>
      have h0 : statuses i = 200 := by simpa using h200
      simp [wait_loop_run, h0, wait_trace]
  | succ k ih =>
    intro i h200 hlt f hf
    match f, hf with
    | f + 1, hf =>
      have h0 : statuses i ≠ 200 := by simpa using hlt 0 (Nat.succ_pos k)
      have h200i : statuses ((i + 1) + k) = 200 := by
        have he : i + (k + 1) = (i + 1) + k := by omega
        rwa [he] at h200
      have hlti : ∀ j, j < k → statuses ((i + 1) + j) ≠ 200 := by
        intro j hj
        have he : (i + 1) + j = i + (j + 1) := by omega
        rw [he]
        exact hlt (j + 1) (by omega)
      have hrec := ih (i + 1) h200i hlti f (by omega)
      simp [wait_loop_run, h0, hrec, wait_trace]

/-- Auxiliary: each of the n iterations of the probe trace holds exactly one
HTTP GET and one sleep. -/
theorem wait_trace_counts (n : Nat) :
    (wait_trace n).count Action.httpGet = n ∧
      (wait_trace n).count Action.sleep10 = n := by
  induction n with
  | zero => simp [wait_trace]
  | succ n ih =>
    refine ⟨?_, ?_⟩ <;> simp [wait_trace, List.count_cons, ih.1, ih.2]

/-- Auxiliary: the probe trace ends with a sleep, also when the last probe is
the one that returned 200. -/
theorem wait_trace_last (n : Nat) :
    (wait_trace (n + 1)).getLast? = some Action.sleep10 := by
  induction n with
  | zero => rfl
  | succ n ih =>
    show (Action.httpGet :: Action.sleep10 :: wait_trace (n + 1)).getLast? =
      some Action.sleep10
    rw [List.getLast?_cons_cons]
    cases hn : wait_trace (n + 1) with
    | nil => simp [wait_trace] at hn
    | cons a l =>
      rw [List.getLast?_cons_cons]
      rw [hn] at ih
      exact ih

/-- C10: with the wait flag, the readiness loop never terminates when no
probe returns status 200 (no timeout bound), and when the first 200 comes at
probe k it terminates after exactly k+1 probe iterations, each an HTTP GET
followed by a 10-second sleep: at least one GET is issued, there are as many
sleeps as probes, and the final action is the sleep that follows the probe
returning 200. -/
theorem wait_loop_spec (statuses : Nat → Int) :
    ((∀ i, statuses i ≠ 200) → ∀ fuel i, wait_loop_run statuses fuel i = none) ∧
    (∀ k, statuses k = 200 → (∀ j, j < k → statuses j ≠ 200) →
      ∀ f, k < f →
        wait_loop_run statuses f 0 = some (wait_trace (k + 1)) ∧
        (wait_trace (k + 1)).count Action.httpGet = k + 1 ∧
        (wait_trace (k + 1)).count Action.sleep10 = k + 1 ∧
        1 ≤ (wait_trace (k + 1)).count Action.httpGet ∧
        (wait_trace (k + 1)).getLast? = some Action.sleep10) := by
  refine ⟨wait_loop_no_200 statuses, ?_⟩
  intro k h200 hlt f hf
  have h200z : statuses (0 + k) = 200 := by simpa using h200
  have hltz : ∀ j, j < k → statuses (0 + j) ≠ 200 := by
    intro j hj
    simpa using hlt j hj
  refine ⟨wait_loop_first_200 statuses k 0 h200z hltz f hf, ?_, ?_, ?_, ?_⟩
  · exact (wait_trace_counts (k + 1)).1
  · exact (wait_trace_counts (k + 1)).2
  · rw [(wait_trace_counts (k + 1)).1]
    omega
  · exact wait_trace_last k

/-- Concrete instantiation of destroy_lab_dns_first: a lab with a DNS record
and an instance, whose DNS deletion is forced to fail. -/
def sampleInstance : InstanceInfo :=
  { name := "lab-1", url := "lab-1.zone-1", token := "tok", status := "running" }

def sampleVolume : VolumeRecord :=
  { size := "10", location := "us-east1", storage_type := "pd-standard", status := "available" }

def sampleState : JupyterState :=
  { project := "demo", compute_provider := "gce", dns_provider := "gce",
    location := some "us-east1", dns_id := "zone-1",
    inst := some sampleInstance, record := some "rec-1",
    volumes := [("v1", sampleVolume)] }

def sampleEnvDnsFail : ProviderEnv :=
  { instanceCreated := true, createInFlight := false, dnsCreateOk := true,
    dnsDeleteOk := false, instanceDeleteOk := true, resizeOk := true,
    volumeDeleteOk := true, madeInstance := sampleInstance, madeRecord := "rec-1" }

/-- A freshly initialized descriptor carrying one volume and no instance. -/
def sampleStateFresh : JupyterState :=
  { project := "demo", compute_provider := "gce", dns_provider := "gce",
    location := some "us-east1", dns_id := "zone-1",
    inst := none, record := none,
    volumes := [("v1", sampleVolume)] }

/-- Provider environment in which every call succeeds. -/
def sampleEnvOk : ProviderEnv :=
  { instanceCreated := true, createInFlight := false, dnsCreateOk := true,
    dnsDeleteOk := true, instanceDeleteOk := true, resizeOk := true,
    volumeDeleteOk := true, madeInstance := sampleInstance, madeRecord := "rec-1" }

theorem create_lab_volume_first_witness :
    (create_lab sampleEnvOk sampleStateFresh (some "v1")).2.2.head? =
      some (Action.checkVolume "v1") :=
  create_lab_volume_first sampleEnvOk sampleStateFresh "v1" (by decide)

theorem destroy_lab_dns_first_witness :
    (destroy_lab sampleEnvDnsFail sampleState).2.2.head? = some Action.deleteDNSRecord ∧
    (sampleEnvDnsFail.dnsDeleteOk = false →
      (destroy_lab sampleEnvDnsFail sampleState).1 = DestroyRes.PartialDestroy ∧
      Action.deleteInstanceReq ∉ (destroy_lab sampleEnvDnsFail sampleState).2.2 ∧
      (destroy_lab sampleEnvDnsFail sampleState).2.1.inst = some sampleInstance) :=
  destroy_lab_dns_first sampleEnvDnsFail sampleState "rec-1" sampleInstance rfl rfl

/-- A world for the witnesses: the fresh descriptor loaded from
"state.json", the store holding exactly its pushed copy. -/
def sampleWorldFresh : World :=
  { mem := sampleStateFresh, locator := "state.json",
    store := { docs := [("state.json", sampleStateFresh, 1)], pointer := some "state.json" } }

/-- Provider environment in which volume deletion is rejected. -/
def sampleEnvVolFail : ProviderEnv :=
  { instanceCreated := true, createInFlight := false, dnsCreateOk := true,
    dnsDeleteOk := true, instanceDeleteOk := true, resizeOk := true,
    volumeDeleteOk := false, madeInstance := sampleInstance, madeRecord := "rec-1" }

theorem destroy_volume_spec_witness :
    (sampleEnvVolFail.volumeDeleteOk = false →
      destroy_volume sampleEnvVolFail sampleWorldFresh.mem "v1" = (false, sampleWorldFresh.mem) ∧
      (cli_volume_destroy sampleEnvVolFail true sampleWorldFresh "v1").store =
        sampleWorldFresh.store) ∧
    (sampleEnvVolFail.volumeDeleteOk = true →
      (destroy_volume sampleEnvVolFail sampleWorldFresh.mem "v1").1 = true ∧
      (destroy_volume sampleEnvVolFail sampleWorldFresh.mem "v1").2.volumes.lookup "v1" = none) :=
  destroy_volume_spec sampleEnvVolFail sampleWorldFresh "v1" sampleVolume (by decide)

/-- Init parameters matching the descriptor already stored at
"state.json". -/
def sampleInitParams : InitParams :=
  { project := "demo", compute_provider := "gce", dns_provider := "gce",
    location := some "us-east1", dns_id := "zone-1", state_path := "state.json" }

/-- A store already holding the descriptor at "state.json" and no local
pointer file. -/
def sampleStoreNoPointer : StateStore :=
  { docs := [("state.json", sampleStateFresh, 1)], pointer := none }

theorem init_sentinel_witness :
    jupyter_init sampleInitParams sampleStoreNoPointer = (none, sampleStoreNoPointer) ∧
    (cli_init sampleInitParams sampleStoreNoPointer).1 = sampleStoreNoPointer ∧
    (cli_init sampleInitParams sampleStoreNoPointer).1.pointer = none ∧
    CliMsg.tryFetch ∈ (cli_init sampleInitParams sampleStoreNoPointer).2 :=
  init_sentinel sampleInitParams sampleStoreNoPointer rfl (Or.inl (by decide))

theorem init_idempotent_witness :
    jupyter_init sampleInitParams sampleStoreNoPointer = (none, sampleStoreNoPointer) ∧
    jupyter_init sampleInitParams
        (jupyter_init sampleInitParams sampleStoreNoPointer).2 =
      (none, sampleStoreNoPointer) :=
  init_idempotent sampleInitParams sampleStoreNoPointer (Or.inl (by decide))

end Labmachine
